import Mathlib

/-!
Verification of the CopyQ clipboard monitor (`src/clipboardmonitor.cpp`).

The monitor is a single-threaded, event-driven state machine.  We embed its
state (the member fields of `ClipboardMonitor` plus the two single-shot
timers and the socket's signal-block flag) as a Lean structure, and each
slot/handler of the C++ class as a pure function from state (and an
environment describing the OS clipboard) to a new state together with a
list of observable effects (OS buffer writes, outbound change notifications,
error log lines).
-/

namespace CopyQMonitor

/-- Clipboard content: a list of (format name, payload bytes) entries,
mirroring `QMimeData` as used by the monitor. -/
structure MimeData where
  entries : List (String × List Nat)
deriving DecidableEq, Repr

/-- The format names of a snapshot (`QMimeData::formats()`). -/
def MimeData.formats (d : MimeData) : List String :=
  d.entries.map Prod.fst

/-- The two clipboard buffers plus the unused find buffer
(`QClipboard::Mode`). -/
inductive Mode where
  | clipboard
  | selection
  | findBuffer
deriving DecidableEq, Repr

/-- Observable effects of a handler: an OS clipboard write
(`setClipboardData`), an outbound change notification
(`clipboardChanged` → `writeMessage`), or an error log line (`log`). -/
inductive Effect where
  | write (mode : Mode) (d : MimeData)
  | notify (mode : Mode) (d : MimeData)
  | logErr
deriving DecidableEq, Repr

/-- Modelled from the spec: `restrict(snapshot, formatSet)` (the
`cloneData(data, formats)` helper, whose definition lives outside this
repository slice) returns the subset of entries whose format names are in
the set; an empty format set means "no filter" and returns the snapshot
unchanged. -/
def restrict (d : MimeData) (fs : List String) : MimeData :=
  if fs = [] then d else ⟨d.entries.filter (fun e => fs.contains e.1)⟩

/-- Byte-wise hash accumulator used by the fingerprint model. -/
def hashBytes (a : Nat) (bs : List Nat) : Nat :=
  bs.foldl (fun h b => (h * 131 + b + 17) % 4294967296) a

/-- String hash accumulator used by the fingerprint model. -/
def hashStr (a : Nat) (s : String) : Nat :=
  s.data.foldl (fun h c => (h * 131 + c.toNat + 17) % 4294967296) a

/-- Hash one (format, payload) entry into the accumulator. -/
def hashEntry (a : Nat) (e : String × List Nat) : Nat :=
  hashBytes (hashStr a e.1) e.2

/-- The comparison key of a format name: its character codes. -/
def nameKey (s : String) : List Nat :=
  s.data.map Char.toNat

/-- Lexicographic order on comparison keys. -/
def keyLt : List Nat → List Nat → Bool
  | [], [] => false
  | [], _ :: _ => true
  | _ :: _, [] => false
  | a :: as, b :: bs => if a < b then true else if b < a then false else keyLt as bs

/-- Insert an entry into a list sorted by format name. -/
def insertByName (e : String × List Nat) : List (String × List Nat) → List (String × List Nat)
  | [] => [e]
  | x :: xs => if keyLt (nameKey e.1) (nameKey x.1) = true then e :: x :: xs
               else x :: insertByName e xs

/-- Sort entries by format name (canonicalization before hashing). -/
def sortByName (l : List (String × List Nat)) : List (String × List Nat) :=
  l.foldr insertByName []

/-- Modelled from the spec: the fingerprint of a snapshot, deterministic and
independent of entry enumeration order (entries are sorted by format name
before combining); the fingerprint of empty/no-data input is the reserved
sentinel 0, and a non-empty snapshot always hashes to a nonzero value.  The
concrete `hash(data, formats)` function lives outside this repository
slice. -/
def fpOf (d : MimeData) : Nat :=
  match sortByName d.entries with
  | [] => 0
  | l => (l.foldl hashEntry 5381) % 4294967295 + 1

/-- Modelled from the spec: `hash(*data, formats)` — the fingerprint of a
snapshot restricted to a format set. -/
def fingerprint (d : MimeData) (fs : List String) : Nat :=
  fpOf (restrict d fs)

/-- The mutable state of `ClipboardMonitor`: its member fields, the two
single-shot timers (500ms debounce `m_updateTimer`, 100ms X11 guard timer
inside `PrivateX11`), and whether the socket's signals are currently
blocked (`m_socket->blockSignals`). -/
structure MonitorState where
  formats : List String
  newdata : Option MimeData
  checkclip : Bool
  copyclip : Bool
  checksel : Bool
  copysel : Bool
  lastHash : Nat
  updateTimerActive : Bool
  x11TimerActive : Bool
  signalsBlocked : Bool
deriving DecidableEq, Repr

/-- The state after the constructor runs: empty formats, no pending data,
all flags off, last hash 0, both timers idle, signals unblocked. -/
def initialState : MonitorState :=
  { formats := []
  , newdata := none
  , checkclip := false
  , copyclip := false
  , checksel := false
  , copysel := false
  , lastHash := 0
  , updateTimerActive := false
  , x11TimerActive := false
  , signalsBlocked := false }

/-- The debounce interval of `m_updateTimer` (`setInterval(500)`). -/
def updateIntervalMs : Nat := 500

/-- The retry interval of the X11 guard timer (`setInterval(100)`). -/
def guardIntervalMs : Nat := 100

/-- The environment visible to the handlers: OS clipboard ownership,
readable clipboard/selection content (`clipboardData`), whether the X11
display handle can be acquired, and whether button-1 or shift is currently
held (`XQueryPointer` state). -/
structure Env where
  ownsClipboard : Bool
  ownsSelection : Bool
  clipData : Option MimeData
  selData : Option MimeData
  displayAvailable : Bool
  keyHeld : Bool
deriving DecidableEq, Repr

/-- `PrivateX11::waitForKeyRelease`: reports true while the guard timer is
active; otherwise polls the pointer state (failing open to false if the
display cannot be opened) and, if button-1 or shift is held, starts the
100ms guard timer and reports true. -/
def waitForKeyRelease (env : Env) (st : MonitorState) : Bool × MonitorState :=
  if st.x11TimerActive = true then (true, st)
  else if env.displayAvailable = false then (false, st)
  else if env.keyHeld = true then (true, { st with x11TimerActive := true })
  else (false, st)

/-- The shared tail of `ClipboardMonitor::checkClipboard` (X11 build) after
the mode-specific guards: read the buffer, dedup by fingerprint against
`m_lastHash`, restrict to the configured formats, and report/mirror
according to the flags. -/
def evalClipboard (env : Env) (st : MonitorState) (mode : Mode) :
    MonitorState × List Effect :=
  match (if mode = Mode.clipboard then env.clipData else env.selData) with
  | none => (st, [Effect.logErr])
  | some d =>
    if st.lastHash = fingerprint d st.formats then (st, [])
    else if (restrict d st.formats).formats = [] then (st, [])
    else
      ( { st with lastHash := fingerprint d st.formats }
      , if mode = Mode.clipboard then
          (if st.checkclip = true then [Effect.notify mode (restrict d st.formats)] else []) ++
          (if st.copyclip = true then [Effect.write Mode.selection (restrict d st.formats)] else [])
        else
          (if st.checksel = true then [Effect.notify mode (restrict d st.formats)] else []) ++
          (if st.copysel = true then [Effect.write Mode.clipboard (restrict d st.formats)] else []) )

/-- `ClipboardMonitor::checkClipboard` (X11 build): for the clipboard
buffer, bail out unless a clipboard flag is set and we do not own the
buffer; for the selection buffer, additionally defer while
`waitForKeyRelease` reports the selection is still being formed. -/
def checkClipboardX11 (env : Env) (st : MonitorState) (mode : Mode) :
    MonitorState × List Effect :=
  match mode with
  | Mode.clipboard =>
    if (st.checkclip = false ∧ st.copyclip = false) ∨ env.ownsClipboard = true then (st, [])
    else evalClipboard env st mode
  | Mode.selection =>
    if (st.checksel = false ∧ st.copysel = false) ∨ env.ownsSelection = true then (st, [])
    else
      match waitForKeyRelease env st with
      | (true, st1) => (st1, [])
      | (false, st1) => evalClipboard env st1 mode
  | Mode.findBuffer => (st, [])

/-- `ClipboardMonitor::checkClipboard` (non-X11 build): only the clipboard
buffer with `m_checkclip` set is evaluated; the result is a single outbound
notification. -/
def checkClipboardNonX11 (env : Env) (st : MonitorState) (mode : Mode) :
    MonitorState × List Effect :=
  match mode with
  | Mode.clipboard =>
    if st.checkclip = false ∨ env.ownsClipboard = true then (st, [])
    else
      match env.clipData with
      | none => (st, [Effect.logErr])
      | some d =>
        if st.lastHash = fingerprint d st.formats then (st, [])
        else if (restrict d st.formats).formats = [] then (st, [])
        else
          ( { st with lastHash := fingerprint d st.formats }
          , [Effect.notify Mode.clipboard (restrict d st.formats)] )
  | _ => (st, [])

/-- `ClipboardMonitor::updateClipboard(data, force)`: stores the push as
`m_newdata`; if not forced and the debounce timer is running, defers.
Otherwise applies: sets `m_lastHash` to the hash of the data over the
data's own format list, writes the data to the clipboard buffer (and, on
the X11 build, a clone to the selection buffer), clears `m_newdata` and
starts the 500ms debounce timer. -/
def updateClipboard (x11 : Bool) (st : MonitorState) (d : MimeData) (force : Bool) :
    MonitorState × List Effect :=
  if force = false ∧ st.updateTimerActive = true then
    ({ st with newdata := some d }, [])
  else
    ( { st with lastHash := fingerprint d d.formats,
                newdata := none,
                updateTimerActive := true }
    , Effect.write Mode.clipboard d ::
        (if x11 = true then [Effect.write Mode.selection d] else []) )

/-- Expiry of the 500ms debounce timer followed by the
`ClipboardMonitor::updateTimeout` slot: if a pending push exists, apply it
with `force = true`; otherwise do nothing. -/
def updateTimerExpire (x11 : Bool) (st : MonitorState) : MonitorState × List Effect :=
  match ({ st with updateTimerActive := false } : MonitorState).newdata with
  | some d => updateClipboard x11 { st with updateTimerActive := false } d true
  | none => ({ st with updateTimerActive := false }, [])

/-- `ClipboardMonitor::updateSelection(check)` (X11 build): returns false
while `waitForKeyRelease` reports the selection is still being formed;
otherwise, if `check` is set, evaluates the selection buffer. -/
def updateSelectionX11 (env : Env) (st : MonitorState) (check : Bool) :
    Bool × MonitorState × List Effect :=
  match waitForKeyRelease env st with
  | (true, st1) => (false, st1, [])
  | (false, st1) =>
    if check = true then
      let r := checkClipboardX11 env st1 Mode.selection
      (true, r.1, r.2)
    else (true, st1, [])

/-- Expiry of the 100ms X11 guard timer followed by its connected
`updateSelection()` slot (with `check` defaulted to true). -/
def x11TimerExpire (env : Env) (st : MonitorState) : MonitorState × List Effect :=
  let r := updateSelectionX11 env { st with x11TimerActive := false } true
  (r.2.1, r.2.2)

/-- An inbound settings mapping (the `QVariantMap` carried under the
`application/x-copyq-settings` format key); each field is `some` exactly
when the corresponding key is present in the mapping.  The `formats` string
is modelled already split into a list of format names. -/
structure Settings where
  lastHash : Option Nat
  formats : Option (List String)
  check_clipboard : Option Bool
  copy_clipboard : Option Bool
  copy_selection : Option Bool
  check_selection : Option Bool
deriving DecidableEq, Repr

/-- The settings block of `ClipboardMonitor::readyRead` (X11 build): each
field present in the mapping is applied; `_last_hash` only when
`m_lastHash` is still 0. -/
def applySettings (st : MonitorState) (s : Settings) : MonitorState :=
  let st1 := if st.lastHash = 0 then
               match s.lastHash with
               | some h => { st with lastHash := h }
               | none => st
             else st
  let st2 := match s.formats with
             | some fs => { st1 with formats := fs }
             | none => st1
  let st3 := match s.check_clipboard with
             | some b => { st2 with checkclip := b }
             | none => st2
  let st4 := match s.copy_clipboard with
             | some b => { st3 with copyclip := b }
             | none => st3
  let st5 := match s.copy_selection with
             | some b => { st4 with copysel := b }
             | none => st4
  match s.check_selection with
  | some b => { st5 with checksel := b }
  | none => st5

/-- One framed message on the socket as seen by the drain loop: `bad` when
`readMessage` fails, otherwise a deserialized `ClipboardItem` that is
either a settings message (non-empty `application/x-copyq-settings` data)
or a content push. -/
inductive Frame where
  | bad
  | push (d : MimeData)
  | settings (s : Settings)
deriving DecidableEq, Repr

/-- The `while (m_socket->bytesAvailable())` drain loop of
`ClipboardMonitor::readyRead` (X11 build).  Returns the final state, the
accumulated effects, and whether the loop ran to completion (false when a
`readMessage` failure caused an early return). -/
def drainLoop (env : Env) (st : MonitorState) :
    List Frame → MonitorState × List Effect × Bool
  | [] => (st, [], true)
  | Frame.bad :: _ => (st, [Effect.logErr], false)
  | Frame.push d :: rest =>
    let r := updateClipboard true st d false
    let k := drainLoop env r.1 rest
    (k.1, r.2 ++ k.2.1, k.2.2)
  | Frame.settings s :: rest =>
    let r1 := checkClipboardX11 env (applySettings st s) Mode.selection
    let r2 := checkClipboardX11 env r1.1 Mode.clipboard
    let k := drainLoop env r2.1 rest
    (k.1, r1.2 ++ r2.2 ++ k.2.1, k.2.2)

/-- `ClipboardMonitor::readyRead` (X11 build): blocks the socket's signals,
drains all buffered frames, and unblocks the signals — except on the
`readMessage` failure path, whose early `return` skips
`blockSignals(false)` and leaves the signals blocked. -/
def readyRead (env : Env) (st : MonitorState) (frames : List Frame) :
    MonitorState × List Effect :=
  let r := drainLoop env { st with signalsBlocked := true } frames
  if r.2.2 = true then ({ r.1 with signalsBlocked := false }, r.2.1)
  else (r.1, r.2.1)

/-- Event-loop delivery of a channel-readable notification: a Qt object
whose signals are blocked emits no `readyRead` signal, so the slot does not
run. -/
def deliverReadyRead (env : Env) (st : MonitorState) (frames : List Frame) :
    MonitorState × List Effect :=
  if st.signalsBlocked = true then (st, []) else readyRead env st frames

/-- The clipboard-buffer writes in an effect list, in order. -/
def clipWrites (l : List Effect) : List MimeData :=
  l.filterMap (fun e => match e with
    | Effect.write Mode.clipboard d => some d
    | _ => none)

/-- The selection-buffer writes in an effect list, in order. -/
def selWrites (l : List Effect) : List MimeData :=
  l.filterMap (fun e => match e with
    | Effect.write Mode.selection d => some d
    | _ => none)

/-- Count of outbound change notifications in an effect list. -/
def countNotify (l : List Effect) : Nat :=
  (l.filter (fun e => match e with
    | Effect.notify _ _ => true
    | _ => false)).length

/-- Invariant relating the pending-push slot and the debounce timer:
`m_newdata` is non-null only while `m_updateTimer` is active. -/
def PendingInv (st : MonitorState) : Prop :=
  st.newdata ≠ none → st.updateTimerActive = true

/-- Sample snapshot: plain text "a". -/
def dA : MimeData := ⟨[("text/plain", [97])]⟩

/-- Sample snapshot: plain text "b". -/
def dB : MimeData := ⟨[("text/plain", [98])]⟩

/-- Sample snapshot with a text entry and an image entry. -/
def dBig : MimeData := ⟨[("text/plain", [97]), ("image/png", [1, 2])]⟩

/-- Sample environment: nothing owned, no data readable, display available,
no button or modifier held. -/
def envIdle : Env :=
  { ownsClipboard := false
  , ownsSelection := false
  , clipData := none
  , selData := none
  , displayAvailable := true
  , keyHeld := false }

/-- C1: the claim says that for pushes P1 then P2 (P2 before the debounce
timer started at P1's arrival fires) exactly one buffer write occurs, using
P2's content.  In the code, a push arriving while the timer is idle is
applied (written) immediately and only then starts the timer, so the run
P1, P2, timer-expiry performs two clipboard writes: first P1's content,
then P2's. -/
theorem C1_counterexample :
    clipWrites ((updateClipboard true initialState dA false).2
      ++ (updateClipboard true (updateClipboard true initialState dA false).1 dB false).2
      ++ (updateTimerExpire true
            (updateClipboard true (updateClipboard true initialState dA false).1 dB false).1).2)
      = [dA, dB] ∧ dA ≠ dB := by
  decide

/-- C1 (amended): for pushes P1 then P2 where the 500ms debounce timer is
idle at P1's arrival (so the timer starts at P1's arrival), P1's content is
written to the clipboard buffer immediately at P1's arrival, P2 causes no
write on arrival, and exactly one further clipboard write occurs at timer
expiry, using P2's content, not P1's. -/
theorem C1_amended (st : MonitorState) (d1 d2 : MimeData)
    (h : st.updateTimerActive = false) :
    updateIntervalMs = 500 ∧
    clipWrites (updateClipboard true st d1 false).2 = [d1] ∧
    (updateClipboard true (updateClipboard true st d1 false).1 d2 false).2 = [] ∧
    clipWrites (updateTimerExpire true
      (updateClipboard true (updateClipboard true st d1 false).1 d2 false).1).2 = [d2] := by
  refine ⟨rfl, ?_, ?_, ?_⟩ <;>
    simp [updateClipboard, updateTimerExpire, clipWrites, h]

/-- C1 witness: the amended debounce behaviour at a concrete run. -/
theorem C1_amended_witness :
    clipWrites (updateTimerExpire true
      (updateClipboard true (updateClipboard true initialState dA false).1 dB false).1).2 = [dB] :=
  (C1_amended initialState dA dB rfl).2.2.2

/-- C2: on a `readMessage` failure the monitor logs an error and aborts the
drain pass without processing the remaining frames — but the early return
skips `blockSignals(false)`, so the socket's signals stay blocked and a
later channel-readable notification is not delivered: nothing further is
ever processed, contradicting the claim that the process continues
listening. -/
theorem C2_blocked_after_bad_frame :
    (readyRead envIdle initialState [Frame.bad, Frame.push dA]).2 = [Effect.logErr] ∧
    (readyRead envIdle initialState [Frame.bad, Frame.push dA]).1 =
      { initialState with signalsBlocked := true } ∧
    deliverReadyRead envIdle
      (readyRead envIdle initialState [Frame.bad, Frame.push dA]).1 [Frame.push dA] =
      ((readyRead envIdle initialState [Frame.bad, Frame.push dA]).1, []) := by
  decide

/-- C4: the claim says an applied push writes to the selection buffer only
if selection mirroring is active.  In the code the X11 build writes a clone
to the selection buffer unconditionally: with every mirror flag off, an
applied push still writes the selection buffer. -/
theorem C4_counterexample :
    initialState.copyclip = false ∧ initialState.copysel = false ∧
    selWrites (updateClipboard true initialState dA false).2 = [dA] := by
  decide

/-- C4 (amended): when an inbound push is applied (forced, or the debounce
timer idle), the engine sets the last-seen fingerprint from the pushed
content, writes the content to the primary buffer, and on the X11 build
writes a copy to the selection buffer unconditionally, regardless of the
mirror flags; on the non-X11 build no selection-buffer write occurs. -/
theorem C4_amended (st : MonitorState) (d : MimeData) (force : Bool)
    (h : force = true ∨ st.updateTimerActive = false) :
    (updateClipboard true st d force).1.lastHash = fingerprint d d.formats ∧
    (updateClipboard true st d force).2 =
      [Effect.write Mode.clipboard d, Effect.write Mode.selection d] ∧
    (updateClipboard false st d force).2 = [Effect.write Mode.clipboard d] := by
  rcases h with h | h <;> simp [updateClipboard, h]

/-- C4 witness: the amended push-apply behaviour at a concrete input. -/
theorem C4_amended_witness :
    (updateClipboard true initialState dA false).2 =
      [Effect.write Mode.clipboard dA, Effect.write Mode.selection dA] :=
  (C4_amended initialState dA false (Or.inr rfl)).2.1

/-- Sample state for C3: clipboard watch flag off, clipboard mirror flag
on. -/
def stC3 : MonitorState := { initialState with copyclip := true }

/-- Sample environment for C3: clipboard readable with text content. -/
def envC3 : Env := { envIdle with clipData := some dA }

/-- C3: the claim says a change on a buffer whose watch flag is off is
ignored regardless of the mirror flag.  In the code the clipboard branch
bails out only when the watch flag AND the mirror flag are both off: with
`check_clipboard` off but `copy_clipboard` on, an external clipboard change
still updates the last-seen fingerprint and performs a mirror write to the
selection buffer. -/
theorem C3_counterexample :
    stC3.checkclip = false ∧
    (checkClipboardX11 envC3 stC3 Mode.clipboard).1.lastHash ≠ stC3.lastHash ∧
    selWrites (checkClipboardX11 envC3 stC3 Mode.clipboard).2 = [dA] := by
  decide

/-- Helper: a clipboard-buffer evaluation with the watch flag off emits no
outbound notification. -/
theorem evalClipboard_no_notify_clip (env : Env) (st : MonitorState)
    (h : st.checkclip = false) :
    countNotify (evalClipboard env st Mode.clipboard).2 = 0 := by
  simp only [evalClipboard]
  split
  · simp [countNotify]
  · split
    · simp [countNotify]
    · split
      · simp [countNotify]
      · simp [countNotify, h]

/-- Helper: a selection-buffer evaluation with the watch flag off emits no
outbound notification. -/
theorem evalClipboard_no_notify_sel (env : Env) (st : MonitorState)
    (h : st.checksel = false) :
    countNotify (evalClipboard env st Mode.selection).2 = 0 := by
  simp only [evalClipboard]
  split
  · simp [countNotify]
  · split
    · simp [countNotify]
    · split
      · simp [countNotify]
      · simp [countNotify, h]

/-- C3 (amended): an external change on a buffer is ignored (state
unchanged, no effects) when both the buffer's watch flag and its mirror
flag are off; when only the watch flag is off, no outbound notification is
emitted for that buffer, but the fingerprint update and the mirror write
may still occur. -/
theorem C3_amended (env : Env) (st : MonitorState) :
    (st.checkclip = false → st.copyclip = false →
      checkClipboardX11 env st Mode.clipboard = (st, [])) ∧
    (st.checksel = false → st.copysel = false →
      checkClipboardX11 env st Mode.selection = (st, [])) ∧
    (st.checkclip = false →
      countNotify (checkClipboardX11 env st Mode.clipboard).2 = 0) ∧
    (st.checksel = false →
      countNotify (checkClipboardX11 env st Mode.selection).2 = 0) := by
  refine ⟨?_, ?_, ?_, ?_⟩
  · intro h1 h2
    simp [checkClipboardX11, h1, h2]
  · intro h1 h2
    simp [checkClipboardX11, h1, h2]
  · intro h1
    simp only [checkClipboardX11]
    split
    · simp [countNotify]
    · exact evalClipboard_no_notify_clip env st h1
  · intro h1
    simp only [checkClipboardX11]
    split
    · simp [countNotify]
    · by_cases ht : st.x11TimerActive = true
      · simp [waitForKeyRelease, ht, countNotify]
      · by_cases hd : env.displayAvailable = false
        · simpa [waitForKeyRelease, ht, hd] using
            evalClipboard_no_notify_sel env st h1
        · by_cases hk : env.keyHeld = true
          · simp [waitForKeyRelease, ht, hd, hk, countNotify]
          · simpa [waitForKeyRelease, ht, hd, hk] using
              evalClipboard_no_notify_sel env st h1

/-- C3 witness: with both clipboard flags off, an external clipboard change
is ignored at a concrete input. -/
theorem C3_amended_witness :
    checkClipboardX11 envC3 initialState Mode.clipboard = (initialState, []) :=
  (C3_amended envC3 initialState).1 rfl rfl

/-- C5: with the clipboard watch flag on and the buffer not self-owned, two
consecutive external clipboard observations whose restrictions to the
accepted-format set are identical produce exactly one outbound change
notification: the first (genuinely new, non-empty) observation notifies and
records its fingerprint, and the second is dropped by the dedup check
against the last-seen fingerprint.  This holds in both the X11 and the
non-X11 build of `checkClipboard`. -/
theorem C5_dedup (env1 env2 : Env) (st : MonitorState) (d1 d2 : MimeData)
    (hc : st.checkclip = true)
    (ho1 : env1.ownsClipboard = false) (ho2 : env2.ownsClipboard = false)
    (hd1 : env1.clipData = some d1) (hd2 : env2.clipData = some d2)
    (hres : restrict d1 st.formats = restrict d2 st.formats)
    (hnew : st.lastHash ≠ fingerprint d1 st.formats)
    (hne : (restrict d1 st.formats).formats ≠ []) :
    countNotify ((checkClipboardX11 env1 st Mode.clipboard).2
      ++ (checkClipboardX11 env2
            (checkClipboardX11 env1 st Mode.clipboard).1 Mode.clipboard).2) = 1 ∧
    countNotify ((checkClipboardNonX11 env1 st Mode.clipboard).2
      ++ (checkClipboardNonX11 env2
            (checkClipboardNonX11 env1 st Mode.clipboard).1 Mode.clipboard).2) = 1 := by
  have hfp : fingerprint d2 st.formats = fingerprint d1 st.formats := by
    simp [fingerprint, hres]
  constructor
  · have e1 : checkClipboardX11 env1 st Mode.clipboard =
        ({ st with lastHash := fingerprint d1 st.formats },
         [Effect.notify Mode.clipboard (restrict d1 st.formats)] ++
           (if st.copyclip = true then
             [Effect.write Mode.selection (restrict d1 st.formats)] else [])) := by
      simp [checkClipboardX11, evalClipboard, hc, ho1, hd1, hnew, hne]
    have e2 : checkClipboardX11 env2
        ({ st with lastHash := fingerprint d1 st.formats } : MonitorState) Mode.clipboard =
        ({ st with lastHash := fingerprint d1 st.formats }, []) := by
      simp [checkClipboardX11, evalClipboard, hc, ho2, hd2, hfp]
    rw [e1]
    simp only [e2]
    by_cases hcp : st.copyclip = true <;> simp [hcp, countNotify]
  · have e1 : checkClipboardNonX11 env1 st Mode.clipboard =
        ({ st with lastHash := fingerprint d1 st.formats },
         [Effect.notify Mode.clipboard (restrict d1 st.formats)]) := by
      simp [checkClipboardNonX11, hc, ho1, hd1, hnew, hne]
    have e2 : checkClipboardNonX11 env2
        ({ st with lastHash := fingerprint d1 st.formats } : MonitorState) Mode.clipboard =
        ({ st with lastHash := fingerprint d1 st.formats }, []) := by
      simp [checkClipboardNonX11, hc, ho2, hd2, hfp]
    rw [e1]
    simp only [e2]
    simp [countNotify]

/-- Sample state for C5 and C10: watching the clipboard, accepted formats
restricted to plain text. -/
def stW : MonitorState :=
  { initialState with checkclip := true, formats := ["text/plain"] }

/-- Sample environment for C5: clipboard readable with a text entry and an
image entry. -/
def envW1 : Env := { envIdle with clipData := some dBig }

/-- Sample environment for C5: clipboard readable with only the text entry
of `dBig`. -/
def envW2 : Env := { envIdle with clipData := some dA }

/-- C5 witness: the dedup behaviour at concrete inputs whose restrictions
to the accepted-format set coincide. -/
theorem C5_dedup_witness :
    countNotify ((checkClipboardX11 envW1 stW Mode.clipboard).2
      ++ (checkClipboardX11 envW2
            (checkClipboardX11 envW1 stW Mode.clipboard).1 Mode.clipboard).2) = 1 :=
  (C5_dedup envW1 envW2 stW dBig dA rfl rfl rfl rfl rfl (by decide)
    (by decide) (by decide)).1

/-- C6: while `waitForKeyRelease` reports the selection is still being
formed (guard timer active, or button-1/shift held), a selection-buffer
change produces no effects and leaves the last-seen fingerprint untouched;
the guard timer fires after the fixed 100ms interval, and its handler
re-polls: if the key is still held (display available) it only re-arms the
guard timer with no effects, and once the key is released it evaluates the
selection buffer. -/
theorem C6_selection_deferral (env : Env) (st : MonitorState) :
    guardIntervalMs = 100 ∧
    ((waitForKeyRelease env st).1 = true →
      (checkClipboardX11 env st Mode.selection).2 = [] ∧
      (checkClipboardX11 env st Mode.selection).1.lastHash = st.lastHash) ∧
    (env.displayAvailable = true → env.keyHeld = true →
      x11TimerExpire env st = ({ st with x11TimerActive := true }, [])) ∧
    (env.keyHeld = false →
      x11TimerExpire env st =
        checkClipboardX11 env { st with x11TimerActive := false } Mode.selection) := by
  refine ⟨rfl, ?_, ?_, ?_⟩
  · intro hw
    simp only [checkClipboardX11]
    split
    · exact ⟨rfl, rfl⟩
    · by_cases ht : st.x11TimerActive = true
      · simp [waitForKeyRelease, ht]
      · by_cases hd : env.displayAvailable = false
        · simp [waitForKeyRelease, ht, hd] at hw
        · by_cases hk : env.keyHeld = true
          · simp [waitForKeyRelease, ht, hd, hk]
          · simp [waitForKeyRelease, ht, hd, hk] at hw
  · intro hd hk
    cases st
    simp [x11TimerExpire, updateSelectionX11, waitForKeyRelease, hd, hk]
  · intro hk
    by_cases hd : env.displayAvailable = false <;>
      simp [x11TimerExpire, updateSelectionX11, waitForKeyRelease, hd, hk]

/-- Sample state for the C6 witness: watching the selection buffer. -/
def stSel : MonitorState := { initialState with checksel := true }

/-- Sample environment for the C6 witness: selection readable, button
held. -/
def envHeld : Env := { envIdle with selData := some dA, keyHeld := true }

/-- C6 witness: with the button held, a concrete watched selection change
is deferred without effects. -/
theorem C6_selection_deferral_witness :
    (checkClipboardX11 envHeld stSel Mode.selection).2 = [] ∧
    (checkClipboardX11 envHeld stSel Mode.selection).1.lastHash = stSel.lastHash :=
  (C6_selection_deferral envHeld stSel).2.1 (by decide)

/-- C7: an inbound settings message updates exactly the SyncConfig fields
whose keys are present in the mapping; every flag or format list whose key
is absent keeps its prior value. -/
theorem C7_partial_update (st : MonitorState) (s : Settings) :
    (s.formats = none → (applySettings st s).formats = st.formats) ∧
    (s.check_clipboard = none → (applySettings st s).checkclip = st.checkclip) ∧
    (s.copy_clipboard = none → (applySettings st s).copyclip = st.copyclip) ∧
    (s.copy_selection = none → (applySettings st s).copysel = st.copysel) ∧
    (s.check_selection = none → (applySettings st s).checksel = st.checksel) := by
  obtain ⟨slh, sf, scc, scpc, scps, scs⟩ := s
  refine ⟨?_, ?_, ?_, ?_, ?_⟩ <;>
    · intro h
      by_cases hz : st.lastHash = 0 <;>
        rcases slh with _ | a <;> rcases sf with _ | b <;> rcases scc with _ | c <;>
        rcases scpc with _ | e <;> rcases scps with _ | f <;> rcases scs with _ | g <;>
        simp_all [applySettings]

/-- A settings mapping carrying only a `formats` key. -/
def sFormatsOnly : Settings :=
  { lastHash := none
  , formats := some ["text/plain"]
  , check_clipboard := none
  , copy_clipboard := none
  , copy_selection := none
  , check_selection := none }

/-- C7 witness: a formats-only settings message leaves `check_clipboard`
and all mirroring flags at their prior values at a concrete input. -/
theorem C7_partial_update_witness :
    (applySettings stW sFormatsOnly).checkclip = stW.checkclip ∧
    (applySettings stW sFormatsOnly).copyclip = stW.copyclip ∧
    (applySettings stW sFormatsOnly).copysel = stW.copysel ∧
    (applySettings stW sFormatsOnly).checksel = stW.checksel :=
  ⟨(C7_partial_update stW sFormatsOnly).2.1 rfl,
   (C7_partial_update stW sFormatsOnly).2.2.1 rfl,
   (C7_partial_update stW sFormatsOnly).2.2.2.1 rfl,
   (C7_partial_update stW sFormatsOnly).2.2.2.2 rfl⟩

/-- C8: a settings message bootstraps the last-seen fingerprint from its
`_last_hash` field exactly when the field is present and the fingerprint
still equals the sentinel 0; once the fingerprint is nonzero, a later
settings message's `_last_hash` never overwrites it. -/
theorem C8_lastHash_bootstrap (st : MonitorState) (s : Settings) :
    (applySettings st s).lastHash =
      if st.lastHash = 0 then
        (match s.lastHash with
         | some h => h
         | none => st.lastHash)
      else st.lastHash := by
  obtain ⟨slh, sf, scc, scpc, scps, scs⟩ := s
  by_cases hz : st.lastHash = 0 <;>
    rcases slh with _ | a <;> rcases sf with _ | b <;> rcases scc with _ | c <;>
    rcases scpc with _ | e <;> rcases scps with _ | f <;> rcases scs with _ | g <;>
    simp [applySettings, hz]

/-- C9: the pending-push slot `m_newdata` is non-null only while the
debounce timer is active: the invariant holds initially, is preserved by
`updateClipboard` and by debounce-timer expiry, every non-deferred apply
clears the slot back to null, and timer expiry with no pending push
performs no write and no other effect. -/
theorem C9_pending_inv (x11 : Bool) (st : MonitorState) (d : MimeData) (force : Bool) :
    PendingInv initialState ∧
    PendingInv (updateClipboard x11 st d force).1 ∧
    ((force = true ∨ st.updateTimerActive = false) →
      (updateClipboard x11 st d force).1.newdata = none) ∧
    PendingInv (updateTimerExpire x11 st).1 ∧
    (st.newdata = none →
      updateTimerExpire x11 st = ({ st with updateTimerActive := false }, [])) := by
  refine ⟨?_, ?_, ?_, ?_, ?_⟩
  · intro h
    simp [initialState] at h
  · simp only [updateClipboard]
    split
    · rename_i hcond
      intro _
      simpa using hcond.2
    · intro h
      simp at h
  · intro h
    rcases h with h | h <;> simp [updateClipboard, h]
  · simp only [updateTimerExpire]
    split
    · simp only [updateClipboard]
      split
      · rename_i hc
        simp at hc
      · intro h
        simp at h
    · intro h
      simp_all
  · intro h
    simp [updateTimerExpire, h]

/-- C9 witness: the invariant facts at a concrete input. -/
theorem C9_pending_inv_witness :
    (updateClipboard true initialState dA false).1.newdata = none ∧
    updateTimerExpire true initialState = ({ initialState with updateTimerActive := false }, []) :=
  ⟨(C9_pending_inv true initialState dA false).2.2.1 (Or.inr rfl),
   (C9_pending_inv true initialState dA false).2.2.2.2 rfl⟩

/-- C10: an applied inbound push records as last-seen fingerprint the hash
of the pushed snapshot over its own full format list, not over the
configured accepted-format set; concretely, pushing a snapshot with a text
and an image entry while the configured set is only plain text records a
fingerprint different from the one a subsequent external observation of
the same content would compute with the configured set. -/
theorem C10_push_hash_own_formats (x11 : Bool) (st : MonitorState) (d : MimeData)
    (force : Bool) :
    ((force = true ∨ st.updateTimerActive = false) →
      (updateClipboard x11 st d force).1.lastHash = fingerprint d d.formats) ∧
    ((updateClipboard true stW dBig false).1.lastHash ≠
      fingerprint dBig (updateClipboard true stW dBig false).1.formats) := by
  constructor
  · intro h
    rcases h with h | h <;> simp [updateClipboard, h]
  · decide

/-- C10 witness: the recorded fingerprint of a concrete applied push. -/
theorem C10_push_hash_own_formats_witness :
    (updateClipboard true stW dBig false).1.lastHash = fingerprint dBig dBig.formats :=
  (C10_push_hash_own_formats true stW dBig false).1 (Or.inr rfl)

end CopyQMonitor
